import Mathlib

/-!
Verification of the metrics aggregation and instrumentation pipeline of the
`artillery-engine-playwright` engine (`src/index.js`).

The source attaches handlers to page lifecycle events and converts browser
events into counter/histogram observations.  This file gives a shallow
embedding of those handlers and of the scenario control flow, and proves the
specification claims about them.

Modelling conventions for the JavaScript source:
* JavaScript objects holding optional numeric fields are structures of
  `Option Int` fields (`none` models an absent field, i.e. `undefined`).
* Emitted numeric values are `JsVal`: either `NaN` (arising from arithmetic
  on `undefined`) or a rational number.
* A `try {...} catch {...}` block is modelled by a body of type
  `Except Unit _` wrapped by a total handler that maps `.error` to "no
  emissions" (the catch only logs).
* The JS object used as the dedup ledger is an association list
  `List (String × PerfTiming)`; a stored timing record is a parsed JSON
  object and hence truthy, so the source's truthiness test
  `if (uniquePageLoadToTiming[timingName])` is key membership.
-/

/-- A JavaScript numeric value as it reaches `events.emit`: either `NaN`
(e.g. `undefined - 5`), `undefined` itself (a missing field passed through
unchanged), or an ordinary number, modelled as a rational. -/
inductive JsVal where
  | undef : JsVal
  | nan : JsVal
  | num : ℚ → JsVal
deriving DecidableEq, Repr

/-- An observation sent to the events sink: `events.emit("counter", name, v)`
or `events.emit("histogram", name, v)` in the source. -/
inductive Emission where
  | counter : String → JsVal → Emission
  | histogram : String → JsVal → Emission
deriving DecidableEq, Repr

/-- JS string truthiness for the scenario name: `undefined` and `""` are
falsy, every other string is truthy (`spec.name` in the ternary at
src/index.js:59). -/
def jsTruthyName : Option String → Bool
  | none => false
  | some s => !s.isEmpty

/-- Function `getName` from src/index.js:58-60:
`aggregateByNameInScenario && spec.name ? spec.name : url`. -/
def getName (aggregateByName : Bool) (specName : Option String) (url : String) : String :=
  if aggregateByName && jsTruthyName specName then specName.getD url else url

/-- JS subtraction on possibly-missing fields:
`undefined - x`, `x - undefined` and `undefined - undefined` are `NaN`
(src/index.js:111-113). -/
def jsSub : Option Int → Option Int → JsVal
  | some a, some b => .num ((a - b : Int) : ℚ)
  | _, _ => .nan

/-- JS string coercion of a possibly-missing numeric field, as used in
string concatenation (`getName(url) + performanceTiming.connectStart`,
src/index.js:102-103): an absent field concatenates as `"undefined"`. -/
def jsFieldNumStr : Option Int → String
  | none => "undefined"
  | some n => toString n

/-- JS template interpolation of a possibly-missing string field
(src/index.js:150): an absent field interpolates as `"undefined"`. -/
def jsFieldStr : Option String → String
  | none => "undefined"
  | some s => s

/-- Model of `s.startsWith(pre)` (JS `String.prototype.startsWith`, used at
src/index.js:145): `pre` is a prefix of `s`. -/
def jsStartsWith (s pre : String) : Bool :=
  List.isPrefixOf pre.data s.data

/-- The performance timing record parsed from the page evaluation at
`domcontentloaded` (src/index.js:98-101).  The shape follows the data
model's Performance Timing Record `{ navigationStart, connectStart,
domInteractive, ... }`; each field may be absent in the parsed JSON
object. -/
structure PerfTiming where
  navigationStart : Option Int
  connectStart : Option Int
  domInteractive : Option Int
deriving DecidableEq, Repr

/-- The dedup ledger `uniquePageLoadToTiming` (src/index.js:83): one JS
object per page session mapping timing identity keys to recorded timing
records. -/
def Ledger := List (String × PerfTiming)

instance : DecidableEq Ledger := inferInstanceAs (DecidableEq (List (String × PerfTiming)))

/-- Property lookup on the ledger object.  The stored values are parsed
JSON objects, which are truthy, so the source's truthiness test is
membership. -/
def Ledger.lookup (l : Ledger) (k : String) : Option PerfTiming :=
  List.lookup k l

/-- Property assignment `uniquePageLoadToTiming[timingName] = performanceTiming`
(src/index.js:107); only reached when the key is absent. -/
def Ledger.insert (l : Ledger) (k : String) (v : PerfTiming) : Ledger :=
  (k, v) :: l

/-- The timing identity key
`getName(pageParameter.url()) + performanceTiming.connectStart`
(src/index.js:102-103). -/
def timingKey (aggregateByName : Bool) (specName : Option String) (url : String)
    (pt : PerfTiming) : String :=
  getName aggregateByName specName url ++ jsFieldNumStr pt.connectStart

/-- Body of the `try` block of the `domcontentloaded` handler
(src/index.js:97-130).  The input `res` is the outcome of
`JSON.parse(await pageParameter.evaluate(browserTiming))`: `none` when the
evaluation rejects, the JSON is malformed, or the parsed value is not an
object (so that the first field access throws); `some pt` when it yields an
object with the given (possibly absent) fields.  Returns the updated ledger
and the emissions, or `.error` when the body throws. -/
def dclBody (aggregateByName : Bool) (specName : Option String) (ledger : Ledger)
    (url : String) (res : Option PerfTiming) : Except Unit (Ledger × List Emission) :=
  match res with
  | none => .error ()
  | some pt =>
    let timingName := timingKey aggregateByName specName url pt
    match ledger.lookup timingName with
    | some _ => .ok (ledger, [])
    | none =>
      let ledger' := ledger.insert timingName pt
      let startToInteractive := jsSub pt.domInteractive pt.navigationStart
      .ok (ledger',
        [ .counter "browser.page.domcontentloaded" (.num 1),
          .counter ("browser.page.domcontentloaded." ++ getName aggregateByName specName url)
            (.num 1),
          .histogram "browser.page.dominteractive" startToInteractive,
          .histogram ("browser.page.dominteractive." ++ getName aggregateByName specName url)
            startToInteractive ])

/-- The full `domcontentloaded` handler (src/index.js:92-134): returns
immediately when extended metrics are off; otherwise runs the body and, on
an exception, logs and leaves the ledger unchanged with no emission. -/
def dclHandler (extendedMetrics aggregateByName : Bool) (specName : Option String)
    (ledger : Ledger) (url : String) (res : Option PerfTiming) : Ledger × List Emission :=
  if !extendedMetrics then (ledger, [])
  else
    match dclBody aggregateByName specName ledger url res with
    | .ok r => r
    | .error _ => (ledger, [])

/-- A custom metric report as destructured from
`JSON.parse(message.text())` (src/index.js:140-141).  `url = none` models a
report whose `url` field is absent or not a string, so that
`url.startsWith(...)` throws; `name = none` models an absent `name` field,
which interpolates as `"undefined"`. -/
structure ConsoleMetric where
  name : Option String
  value : JsVal
  url : Option String
deriving DecidableEq, Repr

/-- Body of the `try` block of the console handler (src/index.js:139-153).
`parsed` is the outcome of `JSON.parse(message.text())` followed by
destructuring: `none` when parsing or destructuring throws.  Note that
`url.startsWith(targetInScenario)` is evaluated before
`showAllPageMetricsInScenario` in the `||`, so a bad `url` throws even when
the override is set. -/
def consoleBody (target : String) (showAllPageMetrics aggregateByName : Bool)
    (specName : Option String) (parsed : Option ConsoleMetric) :
    Except Unit (List Emission) :=
  match parsed with
  | none => .error ()
  | some m =>
    match m.url with
    | none => .error ()
    | some url =>
      if jsStartsWith url target || showAllPageMetrics then
        .ok [.histogram
          ("browser.page." ++ jsFieldStr m.name ++ "." ++ getName aggregateByName specName url)
          m.value]
      else
        .ok []

/-- The full console handler (src/index.js:136-158): only messages of type
`"trace"` are examined; exceptions from the body are caught and logged. -/
def consoleHandler (target : String) (showAllPageMetrics aggregateByName : Bool)
    (specName : Option String) (msgType : String) (parsed : Option ConsoleMetric) :
    List Emission :=
  if msgType = "trace" then
    match consoleBody target showAllPageMetrics aggregateByName specName parsed with
    | .ok es => es
    | .error _ => []
  else []

/-- Body of the `try` block of the `load` handler (src/index.js:165-175).
`heap` is the outcome of `JSON.parse(await pageParameter.evaluate(getHeapSize))`
followed by destructuring `{ usedJSHeapSize }`: `none` when evaluation or
parsing throws or the parsed value is not an object; `some u` when it is an
object whose `usedJSHeapSize` field is `u` (possibly absent).  The emitted
value is `usedJSHeapSize / 1000 / 1000`; division of `undefined` yields
`NaN`. -/
def loadBody (heap : Option (Option Int)) : Except Unit (List Emission) :=
  match heap with
  | none => .error ()
  | some u =>
    let mb : JsVal :=
      match u with
      | none => .nan
      | some x => .num ((x : ℚ) / 1000 / 1000)
    .ok [.histogram "browser.memory_used_mb" mb]

/-- The full `load` handler (src/index.js:160-179): returns immediately when
extended metrics are off; exceptions from the body are caught and logged.
It consults no ledger: every firing is handled independently. -/
def loadHandler (extendedMetrics : Bool) (heap : Option (Option Int)) : List Emission :=
  if !extendedMetrics then []
  else
    match loadBody heap with
    | .ok es => es
    | .error _ => []

/-! ### Engine construction: timeout configuration (src/index.js:26-29, 79-80) -/

/-- Model of `Number.parseInt(s, 10)`: skip leading whitespace, read an optional
sign, then the longest run of decimal digits; `none` (JS `NaN`) when that
run is empty. -/
def jsParseInt10 (s : String) : Option Int :=
  let cs := s.data.dropWhile (fun c => c = ' ' || c = '\t' || c = '\n' || c = '\r')
  let signRest : Int × List Char :=
    match cs with
    | '-' :: t => (-1, t)
    | '+' :: t => (1, t)
    | _ => (1, cs)
  let ds := signRest.2.takeWhile Char.isDigit
  if ds.isEmpty then none
  else some (signRest.1 * (ds.foldl (fun a c => a * 10 + (c.toNat - 48)) 0 : Nat))

/-- The computation `(Number.parseInt(v, 10) || 30) * 1000` (src/index.js:26-29).  The input
is the raw configuration value: `none` when absent (`parseInt(undefined)`
is `NaN`).  `||` takes the fallback 30 exactly when the parse result is
`NaN` or `0` (both falsy). -/
def appliedTimeoutMs (v : Option String) : Int :=
  (match v.bind jsParseInt10 with
   | none => 30
   | some n => if n = 0 then 30 else n) * 1000

/-- The engine configuration fields consumed by the timeout computation
(`script.config.engines.playwright`, src/index.js:21-29). -/
structure EngineConfig where
  defaultNavigationTimeout : Option String
  defaultPageTimeout : Option String

/-- Field `this.defaultNavigationTimeout` (src/index.js:26-27), later passed to
`context.setDefaultNavigationTimeout` (src/index.js:79). -/
def engineNavTimeoutMs (c : EngineConfig) : Int :=
  appliedTimeoutMs c.defaultNavigationTimeout

/-- Field `this.defaultTimeout` (src/index.js:28-29), later passed to
`context.setDefaultTimeout` (src/index.js:80). -/
def enginePageTimeoutMs (c : EngineConfig) : Int :=
  appliedTimeoutMs c.defaultPageTimeout

/-! ### Scenario control flow (src/index.js:62-210) -/

/-- Observable actions of one scenario invocation, in program order. -/
inductive ScenEvent where
  | started : ScenEvent
  | pageClose : ScenEvent
  | cbSuccess : ScenEvent
  | cbError : ScenEvent
  | ctxClose : ScenEvent
  | browserClose : ScenEvent
deriving DecidableEq, Repr

/-- Success or failure of each awaited collaborator call of the scenario
body, in source order: `chromium.launch` (src/index.js:75),
`browser.newContext` (77), the init scripts and `context.newPage` (85-88),
the user flow function (191), and `page.close` (193).  `context.close` and
`browser.close` are treated as succeeding. -/
structure ScenFaults where
  launchOk : Bool
  newContextOk : Bool
  setupOk : Bool
  flowOk : Bool
  pageCloseOk : Bool
deriving DecidableEq, Repr

/-- One scenario invocation (src/index.js:62-210) as the ordered list of
its observable actions plus whether the returned promise rejects.
`chromium.launch` and `browser.newContext` run before the `try`, so their
failures bypass both the `catch` and the `finally`; everything from
`addInitScript` on is inside `try ... catch ... finally`, the `catch`
calling `callback(error, ...)` when a callback was supplied and rethrowing
otherwise, and the `finally` closing the context and then the browser. -/
def scenarioRun (f : ScenFaults) (hasCallback : Bool) : List ScenEvent × Bool :=
  if !f.launchOk then ([.started], true)
  else if !f.newContextOk then ([.started], true)
  else if !f.setupOk then
    ([.started] ++ (if hasCallback then [.cbError] else [])
      ++ [.ctxClose, .browserClose], !hasCallback)
  else if !f.flowOk then
    ([.started] ++ (if hasCallback then [.cbError] else [])
      ++ [.ctxClose, .browserClose], !hasCallback)
  else if !f.pageCloseOk then
    ([.started] ++ (if hasCallback then [.cbError] else [])
      ++ [.ctxClose, .browserClose], !hasCallback)
  else
    ([.started, .pageClose] ++ (if hasCallback then [.cbSuccess] else [])
      ++ [.ctxClose, .browserClose], false)

/-- Number of ledger entries recorded under a key. -/
def Ledger.keyCount (l : Ledger) (k : String) : Nat :=
  List.countP (fun e => e.1 == k) l

/-! ### Helper lemmas -/

theorem strAppendLeftCancel (s a b : String) (h : s ++ a = s ++ b) : a = b := by
  have hd : (s ++ a).data = (s ++ b).data := by rw [h]
  simp [String.data_append] at hd
  exact String.ext hd

theorem keyCount_eq_zero_of_lookup_none {l : Ledger} {k : String}
    (h : l.lookup k = none) : l.keyCount k = 0 := by
  induction l with
  | nil => rfl
  | cons a t ih =>
    obtain ⟨k', v'⟩ := a
    rw [Ledger.lookup, List.lookup_cons] at h
    cases hbe : (k == k') with
    | true => rw [hbe] at h; exact absurd h (by simp)
    | false =>
      rw [hbe] at h
      have ht : Ledger.keyCount t k = 0 := ih h
      have hk2 : (k' == k) = false := by
        rw [beq_eq_false_iff_ne] at hbe ⊢
        exact fun hh => hbe hh.symm
      simp only [Ledger.keyCount, List.countP_cons] at ht ⊢
      simp [hk2, ht]

/-- The first successful recording under a fresh timing identity key:
the record is inserted and the two counters and two histograms are
emitted (src/index.js:104-130). -/
theorem dclHandler_fresh (agg : Bool) (sn : Option String) (ledger : Ledger) (url : String)
    (pt : PerfTiming) (hfresh : ledger.lookup (timingKey agg sn url pt) = none) :
    dclHandler true agg sn ledger url (some pt) =
      (ledger.insert (timingKey agg sn url pt) pt,
       [ .counter "browser.page.domcontentloaded" (.num 1),
         .counter ("browser.page.domcontentloaded." ++ getName agg sn url) (.num 1),
         .histogram "browser.page.dominteractive" (jsSub pt.domInteractive pt.navigationStart),
         .histogram ("browser.page.dominteractive." ++ getName agg sn url)
           (jsSub pt.domInteractive pt.navigationStart) ]) := by
  simp [dclHandler, dclBody, hfresh]

/-- A firing whose timing identity key is already recorded is a no-op
(src/index.js:104-106). -/
theorem dclHandler_dup (agg : Bool) (sn : Option String) (ledger : Ledger) (url : String)
    (pt : PerfTiming) (r : PerfTiming)
    (hdup : ledger.lookup (timingKey agg sn url pt) = some r) :
    dclHandler true agg sn ledger url (some pt) = (ledger, []) := by
  simp [dclHandler, dclBody, hdup]

/-! ### Claims -/

/-- C1: the Dedup Ledger insertion in the `domcontentloaded` handler is
idempotent: after a first successful recording under a timing identity key
(resolved name concatenated with `connectStart`), every later
`domcontentloaded` firing that computes the same key emits no counters and
no histograms and leaves the ledger unchanged; the key is inserted at most
once (exactly once after the first recording). -/
theorem dedup_ledger_idempotent (agg : Bool) (sn : Option String) (ledger : Ledger)
    (url : String) (pt : PerfTiming)
    (hfresh : ledger.lookup (timingKey agg sn url pt) = none) :
    (dclHandler true agg sn ledger url (some pt)).1.lookup (timingKey agg sn url pt) = some pt
    ∧ (dclHandler true agg sn ledger url (some pt)).1.keyCount (timingKey agg sn url pt) = 1
    ∧ ∀ url' pt', timingKey agg sn url' pt' = timingKey agg sn url pt →
        dclHandler true agg sn ((dclHandler true agg sn ledger url (some pt)).1) url'
            (some pt') =
          ((dclHandler true agg sn ledger url (some pt)).1, []) := by
  have h1 := dclHandler_fresh agg sn ledger url pt hfresh
  rw [h1]
  refine ⟨?_, ?_, ?_⟩
  · simp [Ledger.insert, Ledger.lookup, List.lookup_cons]
  · have h0 := keyCount_eq_zero_of_lookup_none hfresh
    simp only [Ledger.insert, Ledger.keyCount, List.countP_cons] at h0 ⊢
    simp at h0 ⊢
    exact h0
  · intro url' pt' hkey
    refine dclHandler_dup agg sn _ url' pt' pt ?_
    rw [hkey]
    simp [Ledger.insert, Ledger.lookup, List.lookup_cons]

/-- Witness for C1: a concrete first recording followed by a second firing
with the same key is a no-op. -/
theorem dedup_ledger_idempotent_witness :
    dclHandler true false none
        ((dclHandler true false none [] "https://t/p"
          (some ⟨some 100, some 5, some 180⟩)).1)
        "https://t/p" (some ⟨some 100, some 5, some 180⟩)
      = ((dclHandler true false none [] "https://t/p"
          (some ⟨some 100, some 5, some 180⟩)).1, []) :=
  (dedup_ledger_idempotent false none [] "https://t/p" ⟨some 100, some 5, some 180⟩
      rfl).2.2 "https://t/p" ⟨some 100, some 5, some 180⟩ rfl

/-- C2: the naming policy `getName` is a pure function of the session
configuration and the URL: it returns the declared scenario name when
`aggregateByName` is enabled and a scenario-level name is declared, and
the raw URL unchanged otherwise; metric names built from it differ for
distinct URLs when `aggregateByName = false`, and coincide when
`aggregateByName = true` with a declared name. -/
theorem getName_naming_policy (sn : Option String) (s : String)
    (hs : sn = some s) (hne : s ≠ "") :
    (∀ url, getName true sn url = s)
    ∧ (∀ n url, jsTruthyName n = false → getName true n url = url)
    ∧ (∀ n url, getName false n url = url)
    ∧ (∀ n p u₁ u₂, u₁ ≠ u₂ → p ++ getName false n u₁ ≠ p ++ getName false n u₂)
    ∧ (∀ p u₁ u₂, p ++ getName true sn u₁ = p ++ getName true sn u₂) := by
  subst hs
  have hts : jsTruthyName (some s) = true := by
    have hh : s.isEmpty = false := by
      cases hh2 : s.isEmpty with
      | false => rfl
      | true => exact absurd ((String.isEmpty_iff s).mp hh2) hne
    simp [jsTruthyName, hh]
  refine ⟨?_, ?_, ?_, ?_, ?_⟩
  · intro url; simp [getName, hts]
  · intro n url h; simp [getName, h]
  · intro n url; simp [getName]
  · intro n p u₁ u₂ hu heq
    simp only [getName, Bool.false_and, if_false] at heq
    exact hu (strAppendLeftCancel p u₁ u₂ heq)
  · intro p u₁ u₂; simp [getName, hts]

/-- Witness for C2 at a concrete configuration and URLs. -/
theorem getName_naming_policy_witness :
    getName true (some "home") "https://a/x" = "home"
    ∧ getName false (some "home") "https://a/x" = "https://a/x" :=
  ⟨(getName_naming_policy (some "home") "home" rfl (by decide)).1 "https://a/x",
   (getName_naming_policy (some "home") "home" rfl (by decide)).2.2.1
     (some "home") "https://a/x"⟩

/-- C3: a successfully decoded console trace metric report with all three
fields emits exactly one histogram `browser.page.<name>.<getName(url)>`
carrying its value when `url` starts with the configured target or the
`showAllPageMetrics` override is set, and zero emissions otherwise. -/
theorem console_emission_gate (target : String) (showAll agg : Bool) (sn : Option String)
    (nm : String) (v : JsVal) (u : String) :
    (jsStartsWith u target = true ∨ showAll = true →
      consoleHandler target showAll agg sn "trace" (some ⟨some nm, v, some u⟩) =
        [.histogram ("browser.page." ++ nm ++ "." ++ getName agg sn u) v])
    ∧ (jsStartsWith u target = false → showAll = false →
      consoleHandler target showAll agg sn "trace" (some ⟨some nm, v, some u⟩) = []) := by
  constructor
  · intro h
    rcases h with h | h <;>
      simp [consoleHandler, consoleBody, jsFieldStr, h]
  · intro h1 h2
    simp [consoleHandler, consoleBody, h1, h2]

/-- Witness for C3: a same-origin report emits once; a cross-origin report
with the override off emits nothing. -/
theorem console_emission_gate_witness :
    consoleHandler "https://t" false false none "trace"
        (some ⟨some "fcp", .num 7, some "https://t/a"⟩) =
      [.histogram "browser.page.fcp.https://t/a" (.num 7)]
    ∧ consoleHandler "https://t" false false none "trace"
        (some ⟨some "fcp", .num 7, some "https://other/a"⟩) = [] := by
  constructor
  · have h := (console_emission_gate "https://t" false false none "fcp" (.num 7)
      "https://t/a").1 (Or.inl (by decide))
    simpa [getName] using h
  · exact (console_emission_gate "https://t" false false none "fcp" (.num 7)
      "https://other/a").2 (by decide) rfl

/-- C6: a first successful `domcontentloaded` recording with extended
metrics emits exactly four observations in order: the plain and
name-qualified `browser.page.domcontentloaded` counters with delta 1, and
the plain and name-qualified `browser.page.dominteractive` histograms, both
carrying `startToInteractive = domInteractive - navigationStart`. -/
theorem dcl_first_recording_emissions (agg : Bool) (sn : Option String) (ledger : Ledger)
    (url : String) (pt : PerfTiming) (ns di : Int)
    (hfresh : ledger.lookup (timingKey agg sn url pt) = none)
    (hns : pt.navigationStart = some ns) (hdi : pt.domInteractive = some di) :
    (dclHandler true agg sn ledger url (some pt)).2 =
      [ .counter "browser.page.domcontentloaded" (.num 1),
        .counter ("browser.page.domcontentloaded." ++ getName agg sn url) (.num 1),
        .histogram "browser.page.dominteractive" (.num ((di - ns : Int) : ℚ)),
        .histogram ("browser.page.dominteractive." ++ getName agg sn url)
          (.num ((di - ns : Int) : ℚ)) ] := by
  rw [dclHandler_fresh agg sn ledger url pt hfresh]
  simp [jsSub, hns, hdi]

/-- Witness for C6: with `navigationStart = 100` and `domInteractive = 180`
the emitted histogram value is 80. -/
theorem dcl_first_recording_emissions_witness :
    (dclHandler true false none [] "https://t/p"
        (some ⟨some 100, some 5, some 180⟩)).2 =
      [ .counter "browser.page.domcontentloaded" (.num 1),
        .counter "browser.page.domcontentloaded.https://t/p" (.num 1),
        .histogram "browser.page.dominteractive" (.num 80),
        .histogram "browser.page.dominteractive.https://t/p" (.num 80) ] := by
  have h := dcl_first_recording_emissions false none [] "https://t/p"
    ⟨some 100, some 5, some 180⟩ 100 180 rfl rfl rfl
  rw [h]
  norm_num [getName]
  exact ⟨rfl, rfl⟩

/-- C4 counterexample: a well-formed record whose `startToInteractive`
is negative (`navigationStart = 180`, `domInteractive = 100`) is NOT
discarded: the handler records it and emits all four observations, the
histograms carrying the negative value -80. -/
theorem dcl_negative_not_discarded :
    dclHandler true false none [] "https://t/p" (some ⟨some 180, some 5, some 100⟩) =
      ([("https://t/p5", ⟨some 180, some 5, some 100⟩)],
       [ .counter "browser.page.domcontentloaded" (.num 1),
         .counter "browser.page.domcontentloaded.https://t/p" (.num 1),
         .histogram "browser.page.dominteractive" (.num (-80)),
         .histogram "browser.page.dominteractive.https://t/p" (.num (-80)) ])
    ∧ (dclHandler true false none [] "https://t/p"
        (some ⟨some 180, some 5, some 100⟩)).2 ≠ [] := by
  constructor
  · rw [dclHandler_fresh false none [] "https://t/p" ⟨some 180, some 5, some 100⟩ rfl]
    norm_num [jsSub, Ledger.insert, timingKey, getName, jsFieldNumStr]
    exact ⟨rfl, rfl, rfl⟩
  · rw [dclHandler_fresh false none [] "https://t/p" ⟨some 180, some 5, some 100⟩ rfl]
    simp

/-- C4 amended: only failures that throw inside the handler's `try`
(a rejected evaluation, malformed JSON, or a non-object result whose field
access throws) are discarded with no counter and no histogram; a record
missing `domInteractive` or `navigationStart` is still recorded and emits
its four observations with `NaN` histograms, and a negative
`startToInteractive` is emitted unchanged — the code performs no
negativity check. -/
theorem dcl_error_policy (agg : Bool) (sn : Option String) (ledger : Ledger) (url : String) :
    dclHandler true agg sn ledger url none = (ledger, [])
    ∧ (∀ pt, ledger.lookup (timingKey agg sn url pt) = none →
        pt.domInteractive = none ∨ pt.navigationStart = none →
        (dclHandler true agg sn ledger url (some pt)).2 =
          [ .counter "browser.page.domcontentloaded" (.num 1),
            .counter ("browser.page.domcontentloaded." ++ getName agg sn url) (.num 1),
            .histogram "browser.page.dominteractive" .nan,
            .histogram ("browser.page.dominteractive." ++ getName agg sn url) .nan ])
    ∧ (∀ pt ns di, ledger.lookup (timingKey agg sn url pt) = none →
        pt.navigationStart = some ns → pt.domInteractive = some di → di - ns < 0 →
        (dclHandler true agg sn ledger url (some pt)).2 =
          [ .counter "browser.page.domcontentloaded" (.num 1),
            .counter ("browser.page.domcontentloaded." ++ getName agg sn url) (.num 1),
            .histogram "browser.page.dominteractive" (.num ((di - ns : Int) : ℚ)),
            .histogram ("browser.page.dominteractive." ++ getName agg sn url)
              (.num ((di - ns : Int) : ℚ)) ]) := by
  refine ⟨rfl, ?_, ?_⟩
  · intro pt hfresh hmiss
    rw [dclHandler_fresh agg sn ledger url pt hfresh]
    rcases hmiss with h | h
    · cases hns : pt.navigationStart <;> simp [jsSub, h, hns]
    · cases hdi : pt.domInteractive <;> simp [jsSub, h, hdi]
  · intro pt ns di hfresh hns hdi _
    exact dcl_first_recording_emissions agg sn ledger url pt ns di hfresh hns hdi

/-- Witness for the amended C4 at concrete records: a missing
`domInteractive` emits `NaN`, and a negative difference emits -80. -/
theorem dcl_error_policy_witness :
    (dclHandler true false none [] "https://u"
        (some ⟨some 100, some 5, none⟩)).2 =
      [ .counter "browser.page.domcontentloaded" (.num 1),
        .counter ("browser.page.domcontentloaded." ++ getName false none "https://u")
          (.num 1),
        .histogram "browser.page.dominteractive" .nan,
        .histogram ("browser.page.dominteractive." ++ getName false none "https://u")
          .nan ]
    ∧ (dclHandler true false none [] "https://u"
        (some ⟨some 180, some 5, some 100⟩)).2 =
      [ .counter "browser.page.domcontentloaded" (.num 1),
        .counter ("browser.page.domcontentloaded." ++ getName false none "https://u")
          (.num 1),
        .histogram "browser.page.dominteractive" (.num ((100 - 180 : Int) : ℚ)),
        .histogram ("browser.page.dominteractive." ++ getName false none "https://u")
          (.num ((100 - 180 : Int) : ℚ)) ] :=
  ⟨(dcl_error_policy false none [] "https://u").2.1 ⟨some 100, some 5, none⟩ rfl
      (Or.inl rfl),
   (dcl_error_policy false none [] "https://u").2.2 ⟨some 180, some 5, some 100⟩ 180 100
      rfl rfl rfl (by decide)⟩

/-- C7: every `load` firing with extended metrics and a successfully parsed
heap sample emits exactly one histogram `browser.memory_used_mb` whose
value is `usedJSHeapSize / 1000 / 1000`, equal to division by 1,000,000;
in particular `usedJSHeapSize = 52000000` yields 52.  The handler consults
no ledger, so every firing produces its own sample. -/
theorem load_heap_histogram (x : Int) :
    loadHandler true (some (some x)) =
      [.histogram "browser.memory_used_mb" (.num ((x : ℚ) / 1000 / 1000))]
    ∧ (x : ℚ) / 1000 / 1000 = (x : ℚ) / 1000000
    ∧ loadHandler true (some (some 52000000)) =
      [.histogram "browser.memory_used_mb" (.num 52)] := by
  refine ⟨rfl, by rw [div_div]; norm_num, ?_⟩
  show [Emission.histogram "browser.memory_used_mb"
    (.num ((52000000 : ℚ) / 1000 / 1000))] = _
  norm_num

/-- C8 counterexample: a console trace message whose text is valid JSON but
lacks the expected `name` field is NOT dropped: the emission gate still
fires and emits one histogram, interpolating `undefined` into the metric
name.  This refutes "lacks expected fields produces zero emissions". -/
theorem console_missing_name_still_emits :
    consoleHandler "https://t" false false none "trace"
        (some ⟨none, .num 3, some "https://t/page"⟩) =
      [.histogram "browser.page.undefined.https://t/page" (.num 3)]
    ∧ consoleHandler "https://t" false false none "trace"
        (some ⟨none, .num 3, some "https://t/page"⟩) ≠ [] := by
  constructor
  · simp [consoleHandler, consoleBody, jsFieldStr, getName,
      show jsStartsWith "https://t/page" "https://t" = true from by decide]
  · simp [consoleHandler, consoleBody, jsFieldStr, getName,
      show jsStartsWith "https://t/page" "https://t" = true from by decide]

/-- C8 amended: the console handler never throws (the body's exceptions are
mapped to "no emission"); a trace message whose text is not valid JSON, or
whose `url` field is absent or not a string, produces zero emissions; but a
message lacking only other expected fields (e.g. `name`) still emits one
histogram, with `"undefined"` interpolated into its metric name. -/
theorem console_parse_failure_contained (target : String) (showAll agg : Bool)
    (sn : Option String) :
    (consoleBody target showAll agg sn none = .error ()
      ∧ consoleHandler target showAll agg sn "trace" none = [])
    ∧ (∀ nm v, consoleBody target showAll agg sn (some ⟨nm, v, none⟩) = .error ()
      ∧ consoleHandler target showAll agg sn "trace" (some ⟨nm, v, none⟩) = [])
    ∧ (∀ v u, jsStartsWith u target = true →
        consoleHandler target showAll agg sn "trace" (some ⟨none, v, some u⟩) =
          [.histogram ("browser.page.undefined." ++ getName agg sn u) v]) := by
  refine ⟨⟨rfl, rfl⟩, fun nm v => ⟨rfl, rfl⟩, ?_⟩
  intro v u h
  simp [consoleHandler, consoleBody, jsFieldStr, h]

/-- Witness for the amended C8 at concrete messages. -/
theorem console_parse_failure_contained_witness :
    consoleHandler "https://t" false false none "trace" none = []
    ∧ consoleHandler "https://t" false false none "trace"
        (some ⟨some "m", .num 1, none⟩) = []
    ∧ consoleHandler "https://t" false false none "trace"
        (some ⟨none, .num 1, some "https://t/q"⟩) =
      [.histogram ("browser.page.undefined." ++ getName false none "https://t/q")
        (.num 1)] :=
  ⟨(console_parse_failure_contained "https://t" false false none).1.2,
   ((console_parse_failure_contained "https://t" false false none).2.1
      (some "m") (.num 1)).2,
   (console_parse_failure_contained "https://t" false false none).2.2 (.num 1)
      "https://t/q" (by decide)⟩

/-- C9: a console trace message whose decoded `url` field is absent or not
a string emits nothing even with the `showAllPageMetrics` override set:
`url.startsWith(target)` is evaluated before the `||` override and its
TypeError is caught and only logged. -/
theorem console_bad_url_beats_override (target : String) (agg : Bool) (sn : Option String)
    (nm : Option String) (v : JsVal) :
    consoleBody target true agg sn (some ⟨nm, v, none⟩) = .error ()
    ∧ consoleHandler target true agg sn "trace" (some ⟨nm, v, none⟩) = [] :=
  ⟨rfl, rfl⟩

/-- C5 counterexample: a `browser.newContext` failure — a resource error in
the spec's taxonomy — happens before the `try`/`finally`, so the scenario
rejects without executing `context.close()` or `browser.close()` (and
without invoking the callback). -/
theorem scenario_newContext_failure_skips_close :
    scenarioRun ⟨true, false, true, true, true⟩ true = ([.started], true)
    ∧ ScenEvent.ctxClose ∉ (scenarioRun ⟨true, false, true, true, true⟩ true).1
    ∧ ScenEvent.browserClose ∉ (scenarioRun ⟨true, false, true, true, true⟩ true).1 := by
  refine ⟨rfl, ?_, ?_⟩ <;> decide

/-- C5 amended: when a flow function throws, the error is delivered to the
callback as `callback(error, context)` when one was supplied and the
promise resolves, and otherwise the error is rethrown (the promise
rejects); `context.close()` followed by `browser.close()` executes on every
exit path that enters the `try` block — normal completion, a flow error,
or a resource error after context creation (init-script, page-creation or
page-close failure).  A failure of `chromium.launch` or
`browser.newContext` occurs before the `try`, so the close sequence is not
executed there. -/
theorem scenario_close_discipline (f : ScenFaults) (cb : Bool)
    (hl : f.launchOk = true) (hc : f.newContextOk = true) :
    (∃ pre, (scenarioRun f cb).1 = pre ++ [.ctxClose, .browserClose])
    ∧ (f.setupOk = true → f.flowOk = false →
        (cb = true → ScenEvent.cbError ∈ (scenarioRun f cb).1
          ∧ (scenarioRun f cb).2 = false)
        ∧ (cb = false → (scenarioRun f cb).2 = true
          ∧ ScenEvent.cbError ∉ (scenarioRun f cb).1)) := by
  obtain ⟨l, nc, s, fl, pc⟩ := f
  simp only at hl hc
  subst hl; subst hc
  constructor
  · cases s <;> cases fl <;> cases pc <;> cases cb <;>
      first
        | exact ⟨[.started], rfl⟩
        | exact ⟨[.started, .cbError], rfl⟩
        | exact ⟨[.started, .pageClose], rfl⟩
        | exact ⟨[.started, .pageClose, .cbSuccess], rfl⟩
  · intro hs hfl
    simp only at hs hfl
    subst hs; subst hfl
    cases pc <;> cases cb <;> decide

/-- Witness for the amended C5: a flow error with a callback supplied
reaches the callback and is followed by the close sequence. -/
theorem scenario_close_discipline_witness :
    (∃ pre, (scenarioRun ⟨true, true, true, false, true⟩ true).1 =
        pre ++ [.ctxClose, .browserClose])
    ∧ ScenEvent.cbError ∈ (scenarioRun ⟨true, true, true, false, true⟩ true).1 :=
  ⟨(scenario_close_discipline ⟨true, true, true, false, true⟩ true rfl rfl).1,
   (((scenario_close_discipline ⟨true, true, true, false, true⟩ true rfl rfl).2
      rfl rfl).1 rfl).1⟩

/-- C10: the navigation and page timeouts applied to the browsing context
are the configured values parsed as base-10 integers and multiplied by
1000; a value that is absent, parses to 0, or does not parse at all falls
back to 30, i.e. an applied timeout of 30000 ms. -/
theorem engine_timeout_config (c : EngineConfig) :
    (∀ n, c.defaultNavigationTimeout.bind jsParseInt10 = some n → n ≠ 0 →
      engineNavTimeoutMs c = n * 1000)
    ∧ (c.defaultNavigationTimeout.bind jsParseInt10 = none
        ∨ c.defaultNavigationTimeout.bind jsParseInt10 = some 0 →
      engineNavTimeoutMs c = 30000)
    ∧ (∀ n, c.defaultPageTimeout.bind jsParseInt10 = some n → n ≠ 0 →
      enginePageTimeoutMs c = n * 1000)
    ∧ (c.defaultPageTimeout.bind jsParseInt10 = none
        ∨ c.defaultPageTimeout.bind jsParseInt10 = some 0 →
      enginePageTimeoutMs c = 30000) := by
  refine ⟨?_, ?_, ?_, ?_⟩
  · intro n h hn
    simp [engineNavTimeoutMs, appliedTimeoutMs, h, hn]
  · intro h
    rcases h with h | h <;> norm_num [engineNavTimeoutMs, appliedTimeoutMs, h]
  · intro n h hn
    simp [enginePageTimeoutMs, appliedTimeoutMs, h, hn]
  · intro h
    rcases h with h | h <;> norm_num [enginePageTimeoutMs, appliedTimeoutMs, h]

/-- Witness for C10: `defaultNavigationTimeout = "45"` gives 45000 ms and
an absent `defaultPageTimeout` gives 30000 ms. -/
theorem engine_timeout_config_witness :
    engineNavTimeoutMs ⟨some "45", none⟩ = 45 * 1000
    ∧ enginePageTimeoutMs ⟨some "45", none⟩ = 30000 :=
  ⟨(engine_timeout_config ⟨some "45", none⟩).1 45 (by decide) (by decide),
   (engine_timeout_config ⟨some "45", none⟩).2.2.2 (Or.inl rfl)⟩
